import Mathlib

/-!
Verification of the call-count instrumentation layer declared in
`bundles/org.eclipse.swt/Eclipse SWT PI/photon/library/os_stats.h`.

The header declares (enabled configuration, `NATIVE_STATS` defined):

  int OS_nativeFunctionCallCount[];
  char* OS_nativeFunctionNames[];
  #define OS_NATIVE_ENTER(env, that, func) OS_nativeFunctionCallCount[func]++;
  #define OS_NATIVE_EXIT(env, that, func)

and in the disabled configuration both macros expand to nothing.  It then
defines 285 `*_FUNC` integer constants, one per native entry point.

The shallow embedding below models the process-wide instrumentation state as a
pair of total maps (counter table, name table).  The counters are C `int`s,
i.e. 32-bit machine words; an increment is modelled as addition modulo 2^32 on
the word's bit pattern.
-/

set_option linter.unusedVariables false
set_option maxRecDepth 100000

namespace OSStats

/-- Bit width of the C `int` counters on the target platform. -/
def wordBits : Nat := 32

/-- Modulus for 32-bit counter arithmetic. -/
def wordMod : Nat := 2 ^ wordBits

/-- The process-wide instrumentation state: the counter table
`OS_nativeFunctionCallCount` and the name table `OS_nativeFunctionNames`,
each indexed by function identifier. -/
structure NativeState where
  counts : Nat → Nat
  names : Nat → String

/-- `OS_NATIVE_ENTER(env, that, func)` in the enabled configuration:
`OS_nativeFunctionCallCount[func]++;` — store at index `func` the old value
plus one, as a 32-bit word.  `env` and `that` are the trampoline's JNI
arguments; the macro ignores them. -/
def OS_NATIVE_ENTER (env that func : Nat) (s : NativeState) : NativeState :=
  { s with counts := Function.update s.counts func ((s.counts func + 1) % wordMod) }

/-- `OS_NATIVE_EXIT(env, that, func)` in the enabled configuration: expands to
nothing. -/
def OS_NATIVE_EXIT (env that func : Nat) (s : NativeState) : NativeState :=
  s

/-- `OS_NATIVE_ENTER(env, that, func)` in the disabled configuration
(`NATIVE_STATS` not defined): expands to nothing. -/
def OS_NATIVE_ENTER_disabled (env that func : Nat) (s : NativeState) : NativeState :=
  s

/-- `OS_NATIVE_EXIT(env, that, func)` in the disabled configuration: expands to
nothing. -/
def OS_NATIVE_EXIT_disabled (env that func : Nat) (s : NativeState) : NativeState :=
  s

/-- The `*_FUNC` constants of os_stats.h, in file order: each entry pairs the
native entry point's qualified name (the constant's name without its `_FUNC`
suffix) with the identifier value the header assigns to it. -/
def funcConsts : List (String × Nat) := [
  ("PfDecomposeStemToID", 0),
  ("PfExtentText__Lorg_eclipse_swt_internal_photon_PhRect_1t_2Lorg_eclipse_swt_internal_photon_PhPoint_1t_2III", 1),
  ("PfExtentText__Lorg_eclipse_swt_internal_photon_PhRect_1t_2Lorg_eclipse_swt_internal_photon_PhPoint_1t_2_3B_3BI", 2),
  ("PfExtentWideText", 3),
  ("PfFontDescription", 4),
  ("PfFontFlags", 5),
  ("PfFontSize", 6),
  ("PfFreeFont", 7),
  ("PfGenerateFontName", 8),
  ("PfLoadMetrics", 9),
  ("PfQueryFontInfo", 10),
  ("PfQueryFonts", 11),
  ("PgAlphaOff", 12),
  ("PgAlphaOn", 13),
  ("PgCreateGC", 14),
  ("PgDestroyGC", 15),
  ("PgDrawArc", 16),
  ("PgDrawArrow", 17),
  ("PgDrawBitmap", 18),
  ("PgDrawEllipse", 19),
  ("PgDrawGradient", 20),
  ("PgDrawILine", 21),
  ("PgDrawIPixel", 22),
  ("PgDrawIRect", 23),
  ("PgDrawImage", 24),
  ("PgDrawMultiTextArea", 25),
  ("PgDrawPhImageRectmx", 26),
  ("PgDrawPolygon", 27),
  ("PgDrawRoundRect", 28),
  ("PgDrawTImage", 29),
  ("PgDrawText", 30),
  ("PgExtentMultiText", 31),
  ("PgFlush", 32),
  ("PgGetVideoMode", 33),
  ("PgGetVideoModeInfo", 34),
  ("PgReadScreen", 35),
  ("PgReadScreenSize", 36),
  ("PgSetAlpha", 37),
  ("PgSetClipping", 38),
  ("PgSetDrawBufferSize", 39),
  ("PgSetDrawMode", 40),
  ("PgSetFillColor", 41),
  ("PgSetFillTransPat", 42),
  ("PgSetFont", 43),
  ("PgSetGC", 44),
  ("PgSetMultiClip", 45),
  ("PgSetPalette", 46),
  ("PgSetRegion", 47),
  ("PgSetStrokeCap", 48),
  ("PgSetStrokeColor", 49),
  ("PgSetStrokeDash", 50),
  ("PgSetStrokeWidth", 51),
  ("PgSetTextColor", 52),
  ("PgSetTextXORColor", 53),
  ("PgSetUserClip", 54),
  ("PgShmemCreate", 55),
  ("PgShmemDestroy", 56),
  ("PhAddMergeTiles", 57),
  ("PhAreaToRect", 58),
  ("PhBlit", 59),
  ("PhClipTilings", 60),
  ("PhClipboardCopy", 61),
  ("PhClipboardCopyString", 62),
  ("PhClipboardPasteFinish", 63),
  ("PhClipboardPasteStart", 64),
  ("PhClipboardPasteString", 65),
  ("PhClipboardPasteType", 66),
  ("PhClipboardPasteTypeN", 67),
  ("PhCoalesceTiles", 68),
  ("PhCopyTiles", 69),
  ("PhCreateImage", 70),
  ("PhDCSetCurrent", 71),
  ("PhDeTranslateTiles", 72),
  ("PhEventNext", 73),
  ("PhEventPeek", 74),
  ("PhFreeTiles", 75),
  ("PhGetData", 76),
  ("PhGetMsgSize", 77),
  ("PhGetRects", 78),
  ("PhGetTile", 79),
  ("PhInitDrag", 80),
  ("PhInputGroup", 81),
  ("PhIntersectTilings", 82),
  ("PhKeyToMb", 83),
  ("PhMakeGhostBitmap", 84),
  ("PhMakeTransBitmap", 85),
  ("PhMergeTiles", 86),
  ("PhMoveCursorAbs", 87),
  ("PhQueryCursor", 88),
  ("PhQueryRids", 89),
  ("PhRectIntersect", 90),
  ("PhRectUnion__II", 91),
  ("PhRectUnion__Lorg_eclipse_swt_internal_photon_PhRect_1t_2Lorg_eclipse_swt_internal_photon_PhRect_1t_2", 92),
  ("PhRectsToTiles", 93),
  ("PhRegionQuery", 94),
  ("PhReleaseImage", 95),
  ("PhSortTiles", 96),
  ("PhTilesToRects", 97),
  ("PhTranslateTiles", 98),
  ("PhWindowQueryVisible", 99),
  ("PiCropImage", 100),
  ("PiDuplicateImage", 101),
  ("PmMemCreateMC", 102),
  ("PmMemFlush", 103),
  ("PmMemReleaseMC", 104),
  ("PmMemStart", 105),
  ("PmMemStop", 106),
  ("PtAddCallback", 107),
  ("PtAddEventHandler", 108),
  ("PtAddFilterCallback", 109),
  ("PtAddHotkeyHandler", 110),
  ("PtAlert", 111),
  ("PtAppAddInput", 112),
  ("PtAppAddWorkProc", 113),
  ("PtAppCreatePulse", 114),
  ("PtAppDeletePulse", 115),
  ("PtAppProcessEvent", 116),
  ("PtAppPulseTrigger", 117),
  ("PtAppRemoveInput", 118),
  ("PtAppRemoveWorkProc", 119),
  ("PtBeep", 120),
  ("PtBlit", 121),
  ("PtBlockAllWindows", 122),
  ("PtBlockWindow", 123),
  ("PtButton", 124),
  ("PtCalcBorder", 125),
  ("PtCalcCanvas", 126),
  ("PtClippedBlit", 127),
  ("PtColorSelect", 128),
  ("PtComboBox", 129),
  ("PtContainer", 130),
  ("PtContainerFindFocus", 131),
  ("PtContainerFocusNext", 132),
  ("PtContainerFocusPrev", 133),
  ("PtContainerGiveFocus", 134),
  ("PtContainerHold", 135),
  ("PtContainerRelease", 136),
  ("PtCreateAppContext", 137),
  ("PtCreateWidget", 138),
  ("PtCreateWidgetClass", 139),
  ("PtDamageExtent", 140),
  ("PtDamageWidget", 141),
  ("PtDestroyWidget", 142),
  ("PtDisjoint", 143),
  ("PtEnter", 144),
  ("PtEventHandler", 145),
  ("PtExtentWidget", 146),
  ("PtExtentWidgetFamily", 147),
  ("PtFileSelection", 148),
  ("PtFindDisjoint", 149),
  ("PtFlush", 150),
  ("PtFontSelection", 151),
  ("PtForwardWindowEvent", 152),
  ("PtFrameSize", 153),
  ("PtGetAbsPosition", 154),
  ("PtGetResources", 155),
  ("PtGlobalFocusNext", 156),
  ("PtGlobalFocusNextContainer", 157),
  ("PtGlobalFocusPrev", 158),
  ("PtGlobalFocusPrevContainer", 159),
  ("PtGroup", 160),
  ("PtHit", 161),
  ("PtHold", 162),
  ("PtInflateBalloon", 163),
  ("PtInit", 164),
  ("PtIsFocused", 165),
  ("PtLabel", 166),
  ("PtLeave", 167),
  ("PtList", 168),
  ("PtListAddItems", 169),
  ("PtListDeleteAllItems", 170),
  ("PtListDeleteItemPos", 171),
  ("PtListGotoPos", 172),
  ("PtListItemPos", 173),
  ("PtListReplaceItemPos", 174),
  ("PtListSelectPos", 175),
  ("PtListUnselectPos", 176),
  ("PtMainLoop", 177),
  ("PtMenu", 178),
  ("PtMenuBar", 179),
  ("PtMenuButton", 180),
  ("PtMultiText", 181),
  ("PtNextTopLevelWidget", 182),
  ("PtPane", 183),
  ("PtPanelGroup", 184),
  ("PtPositionMenu", 185),
  ("PtProgress", 186),
  ("PtReParentWidget", 187),
  ("PtRealizeWidget", 188),
  ("PtRegion", 189),
  ("PtRelease", 190),
  ("PtRemoveCallback", 191),
  ("PtRemoveHotkeyHandler", 192),
  ("PtScrollArea", 193),
  ("PtScrollContainer", 194),
  ("PtScrollbar", 195),
  ("PtSendEventToWidget", 196),
  ("PtSeparator", 197),
  ("PtSetAreaFromWidgetCanvas", 198),
  ("PtSetParentWidget", 199),
  ("PtSetResource", 200),
  ("PtSetResources", 201),
  ("PtSlider", 202),
  ("PtSuperClassDraw", 203),
  ("PtSyncWidget", 204),
  ("PtText", 205),
  ("PtTextGetSelection", 206),
  ("PtTextModifyText__IIIIII", 207),
  ("PtTextModifyText__IIII_3BI", 208),
  ("PtTextSetSelection", 209),
  ("PtTimer", 210),
  ("PtToggleButton", 211),
  ("PtToolbar", 212),
  ("PtUnblockWindows", 213),
  ("PtUnrealizeWidget", 214),
  ("PtValidParent", 215),
  ("PtWebClient", 216),
  ("PtWidgetArea", 217),
  ("PtWidgetBrotherBehind", 218),
  ("PtWidgetBrotherInFront", 219),
  ("PtWidgetCanvas__II", 220),
  ("PtWidgetCanvas__ILorg_eclipse_swt_internal_photon_PhRect_1t_2", 221),
  ("PtWidgetChildBack", 222),
  ("PtWidgetChildFront", 223),
  ("PtWidgetClass", 224),
  ("PtWidgetExtent__II", 225),
  ("PtWidgetExtent__ILorg_eclipse_swt_internal_photon_PhRect_1t_2", 226),
  ("PtWidgetFlags", 227),
  ("PtWidgetInsert", 228),
  ("PtWidgetIsClassMember", 229),
  ("PtWidgetIsRealized", 230),
  ("PtWidgetOffset", 231),
  ("PtWidgetParent", 232),
  ("PtWidgetPreferredSize", 233),
  ("PtWidgetRid", 234),
  ("PtWidgetToBack", 235),
  ("PtWidgetToFront", 236),
  ("PtWindow", 237),
  ("PtWindowFocus", 238),
  ("PtWindowGetState", 239),
  ("PtWindowToBack", 240),
  ("PtWindowToFront", 241),
  ("free", 242),
  ("getenv", 243),
  ("malloc", 244),
  ("memmove__III", 245),
  ("memmove__ILorg_eclipse_swt_internal_photon_PgAlpha_1t_2I", 246),
  ("memmove__ILorg_eclipse_swt_internal_photon_PhArea_1t_2I", 247),
  ("memmove__ILorg_eclipse_swt_internal_photon_PhCursorDef_1t_2I", 248),
  ("memmove__ILorg_eclipse_swt_internal_photon_PhEvent_1t_2I", 249),
  ("memmove__ILorg_eclipse_swt_internal_photon_PhImage_1t_2I", 250),
  ("memmove__ILorg_eclipse_swt_internal_photon_PhPoint_1t_2I", 251),
  ("memmove__ILorg_eclipse_swt_internal_photon_PhPointerEvent_1t_2I", 252),
  ("memmove__ILorg_eclipse_swt_internal_photon_PhRect_1t_2I", 253),
  ("memmove__ILorg_eclipse_swt_internal_photon_PhTile_1t_2I", 254),
  ("memmove__ILorg_eclipse_swt_internal_photon_PtTextCallback_1t_2I", 255),
  ("memmove__ILorg_eclipse_swt_internal_photon_PtWebClientData_1t_2I", 256),
  ("memmove__I_3BI", 257),
  ("memmove__I_3II", 258),
  ("memmove__Lorg_eclipse_swt_internal_photon_FontDetails_2II", 259),
  ("memmove__Lorg_eclipse_swt_internal_photon_PgAlpha_1t_2II", 260),
  ("memmove__Lorg_eclipse_swt_internal_photon_PgMap_1t_2II", 261),
  ("memmove__Lorg_eclipse_swt_internal_photon_PhClipHeader_2II", 262),
  ("memmove__Lorg_eclipse_swt_internal_photon_PhEvent_1t_2II", 263),
  ("memmove__Lorg_eclipse_swt_internal_photon_PhImage_1t_2II", 264),
  ("memmove__Lorg_eclipse_swt_internal_photon_PhKeyEvent_1t_2II", 265),
  ("memmove__Lorg_eclipse_swt_internal_photon_PhPointerEvent_1t_2II", 266),
  ("memmove__Lorg_eclipse_swt_internal_photon_PhRect_1t_2II", 267),
  ("memmove__Lorg_eclipse_swt_internal_photon_PhTile_1t_2II", 268),
  ("memmove__Lorg_eclipse_swt_internal_photon_PhWindowEvent_1t_2II", 269),
  ("memmove__Lorg_eclipse_swt_internal_photon_PtCallbackInfo_1t_2II", 270),
  ("memmove__Lorg_eclipse_swt_internal_photon_PtScrollbarCallback_1t_2II", 271),
  ("memmove__Lorg_eclipse_swt_internal_photon_PtTextCallback_1t_2II", 272),
  ("memmove__Lorg_eclipse_swt_internal_photon_PtWebDataReqCallback_1t_2II", 273),
  ("memmove__Lorg_eclipse_swt_internal_photon_PtWebMetaDataCallback_1t_2II", 274),
  ("memmove__Lorg_eclipse_swt_internal_photon_PtWebStatusCallback_1t_2II", 275),
  ("memmove__Lorg_eclipse_swt_internal_photon_PtWebWindowCallback_1t_2II", 276),
  ("memmove___3BII", 277),
  ("memmove___3BLorg_eclipse_swt_internal_photon_PhClipHeader_2I", 278),
  ("memmove___3III", 279),
  ("memmove___3SII", 280),
  ("memset", 281),
  ("strdup", 282),
  ("strlen", 283),
  ("uname", 284)
]

/-- The number of native entry points: the length of the constant table. -/
def N : Nat := funcConsts.length

/-- Modelled from the spec: the contents of `OS_nativeFunctionNames` (the
header only declares the array; its initializer lives in the generated C file,
produced from the same list of entry points as the `*_FUNC` constants).  The
name at identifier `i` is the name of the constant with value `i`. -/
def OS_nativeFunctionNames : Nat → String :=
  fun i => (funcConsts.getD i ("", 0)).1

/-- The instrumentation state at process start: counter table zero-initialized
(C static storage), name table as generated. -/
def initialState : NativeState :=
  { counts := fun _ => 0, names := OS_nativeFunctionNames }

/-- Modelled from the spec: `report()` produces, for each identifier
`0..n-1`, the pair of its name and its current count. -/
def report (n : Nat) (s : NativeState) : List (String × Nat) :=
  (List.range n).map fun i => (s.names i, s.counts i)

/-- `k` successive expansions of `OS_NATIVE_ENTER` for identifier `func`
(single-threaded; by `OS_NATIVE_ENTER`'s definition the `env`/`that`
arguments are irrelevant, so they are fixed to 0). -/
def enterK (func : Nat) : Nat → NativeState → NativeState
  | 0, s => s
  | k + 1, s => OS_NATIVE_ENTER 0 0 func (enterK func k s)

/-- The code points of a string's characters, for byte-wise comparison of the
ASCII names in the table. -/
def bytesOf (s : String) : List Nat :=
  s.toList.map Char.toNat

/-- Strict lexicographic order on code-point lists. -/
def lexLtBytes : List Nat → List Nat → Bool
  | [], [] => false
  | [], _ :: _ => true
  | _ :: _, [] => false
  | a :: as, b :: bs => a < b || (a == b && lexLtBytes as bs)

/-- Byte-wise lexicographic order on the ASCII names. -/
def lexLt (a b : String) : Bool :=
  lexLtBytes (bytesOf a) (bytesOf b)

/-- Modelled from the spec: insert a name into a lexicographically sorted
list, part of the identifier-assignment sort. -/
def insertLex (x : String) : List String → List String
  | [] => [x]
  | y :: ys => if lexLt x y then x :: y :: ys else y :: insertLex x ys

/-- Modelled from the spec: sort a list of entry-point names byte-wise
lexicographically (insertion sort). -/
def sortLex : List String → List String
  | [] => []
  | x :: xs => insertLex x (sortLex xs)

/-- Modelled from the spec: identifier assignment — sort the entry-point
names lexicographically and number them 0, 1, 2, … in that order. -/
def assignIds (names : List String) : List (String × Nat) :=
  (sortLex names).zip (List.range names.length)

/-- Modelled from the spec: the process-start state of an instrumentation
table for a given (already assigned) name list. -/
def mkState (names : List String) : NativeState :=
  { counts := fun _ => 0, names := fun i => names.getD i "" }

/-- Check, along the constant table in file order, that each adjacent pair of
names is in strictly increasing byte-wise lexicographic order. -/
def sortedByName : List (String × Nat) → Bool
  | [] => true
  | [_] => true
  | p :: q :: rest => lexLt p.1 q.1 && sortedByName (q :: rest)

theorem wordMod_eq : wordMod = 4294967296 := by
  norm_num [wordMod, wordBits]

theorem enter_counts_self (env that func : Nat) (s : NativeState) :
    (OS_NATIVE_ENTER env that func s).counts func = (s.counts func + 1) % wordMod := by
  simp [OS_NATIVE_ENTER, Function.update_same]

theorem enter_counts_other (env that func j : Nat) (s : NativeState) (h : j ≠ func) :
    (OS_NATIVE_ENTER env that func s).counts j = s.counts j := by
  simp [OS_NATIVE_ENTER, Function.update_noteq h]

theorem enter_names (env that func : Nat) (s : NativeState) :
    (OS_NATIVE_ENTER env that func s).names = s.names :=
  rfl

theorem enterK_names (func k : Nat) (s : NativeState) :
    (enterK func k s).names = s.names := by
  induction k with
  | zero => rfl
  | succ k ih => simpa [enterK, OS_NATIVE_ENTER] using ih

theorem enterK_counts (func : Nat) (s : NativeState) (hs : s.counts func < wordMod) :
    ∀ k, (enterK func k s).counts func = (s.counts func + k) % wordMod := by
  intro k
  induction k with
  | zero => simpa [enterK] using (Nat.mod_eq_of_lt hs).symm
  | succ k ih =>
      simp only [enterK, OS_NATIVE_ENTER, Function.update_same, ih]
      rw [wordMod_eq]
      omega

theorem report_get? (n i : Nat) (s : NativeState) (h : i < n) :
    (report n s).get? i = some (s.names i, s.counts i) := by
  rw [List.get?_eq_getElem?]
  simp [report, List.getElem?_range h]

theorem lexLtBytes_trans : ∀ {a b c : List Nat},
    lexLtBytes a b = true → lexLtBytes b c = true → lexLtBytes a c = true := by
  intro a
  induction a with
  | nil =>
      intro b c hab hbc
      cases b with
      | nil => simp [lexLtBytes] at hab
      | cons y ys =>
          cases c with
          | nil => simp [lexLtBytes] at hbc
          | cons z zs => rfl
  | cons x xs ih =>
      intro b c hab hbc
      cases b with
      | nil => simp [lexLtBytes] at hab
      | cons y ys =>
          cases c with
          | nil => simp [lexLtBytes] at hbc
          | cons z zs =>
              simp only [lexLtBytes, Bool.or_eq_true, Bool.and_eq_true,
                decide_eq_true_eq, beq_iff_eq] at hab hbc ⊢
              rcases hab with h1 | ⟨rfl, h1⟩
              · rcases hbc with h2 | ⟨rfl, h2⟩
                · exact Or.inl (Nat.lt_trans h1 h2)
                · exact Or.inl h1
              · rcases hbc with h2 | ⟨rfl, h2⟩
                · exact Or.inl h2
                · exact Or.inr ⟨rfl, ih h1 h2⟩

theorem lexLtBytes_irrefl : ∀ a : List Nat, lexLtBytes a a = false := by
  intro a
  induction a with
  | nil => rfl
  | cons x xs ih => simp [lexLtBytes, ih]

theorem lexLt_trans {a b c : String} (h1 : lexLt a b = true) (h2 : lexLt b c = true) :
    lexLt a c = true :=
  lexLtBytes_trans h1 h2

theorem lexLt_irrefl (a : String) : lexLt a a = false :=
  lexLtBytes_irrefl (bytesOf a)

theorem sortedByName_pairwise : ∀ {l : List (String × Nat)}, sortedByName l = true →
    List.Pairwise (fun p q : String × Nat => lexLt p.1 q.1 = true) l
  | [], _ => List.Pairwise.nil
  | [p], _ => by simp
  | p :: q :: rest, h => by
      simp only [sortedByName, Bool.and_eq_true] at h
      have ih := sortedByName_pairwise h.2
      refine List.Pairwise.cons ?_ ih
      intro r hr
      rcases List.mem_cons.mp hr with rfl | hr'
      · exact h.1
      · exact lexLt_trans h.1 ((List.pairwise_cons.mp ih).1 r hr')

theorem funcConsts_snd_range : funcConsts.map Prod.snd = List.range 285 := by
  decide

theorem funcConsts_pairwise :
    List.Pairwise (fun p q : String × Nat => lexLt p.1 q.1 = true) funcConsts :=
  sortedByName_pairwise (by decide)

theorem funcConsts_getElem?_snd (i : Nat) (p : String × Nat)
    (h : funcConsts[i]? = some p) : p.2 = i := by
  have hm : (funcConsts.map Prod.snd)[i]? = some p.2 := by
    rw [List.getElem?_map, h]
    rfl
  rw [funcConsts_snd_range] at hm
  have hi : i < 285 := by
    by_contra hge
    rw [List.getElem?_eq_none (by simpa using Nat.le_of_not_lt hge)] at hm
    exact Option.noConfusion hm
  rw [List.getElem?_range hi] at hm
  exact (Option.some.inj hm).symm

theorem funcConsts_snd_lt_of_lexLt (p q : String × Nat) (hp : p ∈ funcConsts)
    (hq : q ∈ funcConsts) (hlt : lexLt p.1 q.1 = true) : p.2 < q.2 := by
  obtain ⟨i, hilen, hig⟩ := List.mem_iff_getElem.mp hp
  obtain ⟨j, hjlen, hjg⟩ := List.mem_iff_getElem.mp hq
  have hi? : funcConsts[i]? = some p := by
    rw [List.getElem?_eq_getElem hilen, hig]
  have hj? : funcConsts[j]? = some q := by
    rw [List.getElem?_eq_getElem hjlen, hjg]
  have hpi : p.2 = i := funcConsts_getElem?_snd i p hi?
  have hqj : q.2 = j := funcConsts_getElem?_snd j q hj?
  rw [hpi, hqj]
  rcases Nat.lt_trichotomy i j with h | h | h
  · exact h
  · exfalso
    subst h
    have : p = q := by rw [← hig, ← hjg]
    rw [this, lexLt_irrefl] at hlt
    exact Bool.noConfusion hlt
  · exfalso
    have hqp : lexLt q.1 p.1 = true := by
      have := List.pairwise_iff_get.mp funcConsts_pairwise ⟨j, hjlen⟩ ⟨i, hilen⟩ h
      simpa [List.get_eq_getElem, hig, hjg] using this
    have : lexLt p.1 p.1 = true := lexLt_trans hlt hqp
    rw [lexLt_irrefl] at this
    exact Bool.noConfusion this

/-- C1 (counterexample): the claim "after exactly `k` expansions of
`OS_NATIVE_ENTER` with `func = i` the counter at `i` equals `k`, for every
natural number `k`" fails at `i = 0`, `k = 2^32`: the counters are 32-bit C
`int`s, so 2^32 increments wrap back to 0, and `report()` observes 0, not
2^32. -/
theorem C1_counterexample :
    ¬ (report 285 (enterK 0 (2 ^ 32) initialState)).get? 0 =
        some (OS_nativeFunctionNames 0, 2 ^ 32) := by
  have h0 : (0 : Nat) < 285 := by norm_num
  have hinit : initialState.counts 0 < wordMod := by
    rw [wordMod_eq]
    norm_num [initialState]
  have hc : (enterK 0 (2 ^ 32) initialState).counts 0 = 0 := by
    rw [enterK_counts 0 initialState hinit (2 ^ 32), wordMod_eq]
    norm_num [initialState]
  rw [report_get? 285 0 _ h0, hc, enterK_names]
  intro h
  have := (Prod.mk.injEq _ _ _ _).mp (Option.some.inj h)
  exact absurd this.2 (by norm_num)

/-- C1 (amended): under single-threaded execution, starting from the all-zero
counter table, exactly `k` expansions of `OS_NATIVE_ENTER` with `func = i`
(`0 ≤ i < 285`) leave the counter at index `i` equal to `k` reduced modulo
2^32 (the width of the C `int` counters), as observed by `report()`; in
particular the counter equals `k` whenever `k < 2^32`. -/
theorem C1_count_after_k_enters (i k : Nat) (h : i < 285) :
    (report 285 (enterK i k initialState)).get? i =
      some (OS_nativeFunctionNames i, k % wordMod) := by
  have hinit : initialState.counts i < wordMod := by
    rw [wordMod_eq]
    norm_num [initialState]
  have hc : (enterK i k initialState).counts i = k % wordMod := by
    rw [enterK_counts i initialState hinit k]
    norm_num [initialState]
  rw [report_get? 285 i _ h, hc, enterK_names]
  rfl

/-- Witness for C1 (amended) at `i = 0`, `k = 2`. -/
theorem C1_count_after_k_enters_witness :
    (0 : Nat) < 285 ∧
      (report 285 (enterK 0 2 initialState)).get? 0 =
        some (OS_nativeFunctionNames 0, 2 % wordMod) :=
  ⟨by norm_num, C1_count_after_k_enters 0 2 (by norm_num)⟩

/-- C2: under the precondition `0 ≤ func < N`, the only effect of
`OS_NATIVE_ENTER` is to set the counter at `func` to its old value plus one
(as a 32-bit word); the name table is untouched; and every `*_FUNC` constant
value is below `N = 285`, so the array access `OS_nativeFunctionCallCount[func]`
is in bounds and there is no reachable out-of-range case. -/
theorem C2_enter_effect_and_bounds (env that func : Nat) (s : NativeState)
    (h : func < N) :
    (OS_NATIVE_ENTER env that func s).counts func = (s.counts func + 1) % wordMod ∧
      (OS_NATIVE_ENTER env that func s).names = s.names ∧
      (∀ j, j ≠ func → (OS_NATIVE_ENTER env that func s).counts j = s.counts j) ∧
      ∀ p ∈ funcConsts, p.2 < N :=
  ⟨enter_counts_self env that func s, rfl,
   fun j hj => enter_counts_other env that func j s hj, by decide⟩

/-- Witness for C2 at `env = that = 0`, `func = 0`, the initial state. -/
theorem C2_enter_effect_and_bounds_witness :
    (0 : Nat) < N ∧
      ((OS_NATIVE_ENTER 0 0 0 initialState).counts 0 =
          (initialState.counts 0 + 1) % wordMod ∧
        (OS_NATIVE_ENTER 0 0 0 initialState).names = initialState.names ∧
        (∀ j, j ≠ 0 → (OS_NATIVE_ENTER 0 0 0 initialState).counts j =
          initialState.counts j) ∧
        ∀ p ∈ funcConsts, p.2 < N) :=
  ⟨by decide, C2_enter_effect_and_bounds 0 0 0 initialState (by decide)⟩

/-- C3: the values assigned by the `*_FUNC` constants, read in file order, are
exactly `0, 1, …, 284`: a contiguous range with no gaps and no duplicates,
each constant's value equal to its position, and the table length `N` is
285. -/
theorem C3_identifiers_contiguous :
    funcConsts.map Prod.snd = List.range 285 ∧ funcConsts.length = 285 ∧ N = 285 :=
  ⟨funcConsts_snd_range, by decide, by decide⟩

/-- C4: identifier assignment follows the sorting algorithm: for every pair of
`*_FUNC` constants, the one whose qualified name (signature suffix included)
is byte-wise lexicographically smaller has the smaller identifier, and the 285
names listed in identifier order are strictly increasing in byte-wise
lexicographic order. -/
theorem C4_names_lex_sorted :
    (∀ p ∈ funcConsts, ∀ q ∈ funcConsts, lexLt p.1 q.1 = true → p.2 < q.2) ∧
      List.Pairwise (fun p q : String × Nat => lexLt p.1 q.1 = true) funcConsts :=
  ⟨fun p hp q hq hlt => funcConsts_snd_lt_of_lexLt p q hp hq hlt, funcConsts_pairwise⟩

/-- Witness for C4 on the pair `PfDecomposeStemToID` (id 0) and
`PfExtentWideText` (id 3). -/
theorem C4_names_lex_sorted_witness :
    ("PfDecomposeStemToID", 0) ∈ funcConsts ∧
      ("PfExtentWideText", 3) ∈ funcConsts ∧
      lexLt "PfDecomposeStemToID" "PfExtentWideText" = true ∧ (0 : Nat) < 3 :=
  ⟨by decide, by decide, by decide,
   C4_names_lex_sorted.1 ("PfDecomposeStemToID", 0) (by decide)
     ("PfExtentWideText", 3) (by decide) (by decide)⟩

/-- C5: the counter table starts all zero (C static storage is
zero-initialized), each counter is a non-negative value below 2^32, and an
increment past the maximum representable value wraps modulo 2^32 — at
`2^32 - 1` one more `OS_NATIVE_ENTER` yields 0 — rather than signaling an
error. -/
theorem C5_counters_zero_init_and_wrap (env that func : Nat) (s : NativeState)
    (h : s.counts func = wordMod - 1) :
    (∀ i, initialState.counts i = 0) ∧
      (OS_NATIVE_ENTER env that func s).counts func =
        (s.counts func + 1) % wordMod ∧
      (OS_NATIVE_ENTER env that func s).counts func = 0 := by
  refine ⟨fun i => rfl, enter_counts_self env that func s, ?_⟩
  rw [enter_counts_self env that func s, h, wordMod_eq]

/-- Witness for C5 at a state whose counter 0 holds `2^32 - 1`. -/
theorem C5_counters_zero_init_and_wrap_witness :
    ((⟨fun _ => wordMod - 1, OS_nativeFunctionNames⟩ : NativeState).counts 0 =
        wordMod - 1) ∧
      ((∀ i, initialState.counts i = 0) ∧
        (OS_NATIVE_ENTER 0 0 0
            (⟨fun _ => wordMod - 1, OS_nativeFunctionNames⟩ : NativeState)).counts 0 =
          ((⟨fun _ => wordMod - 1, OS_nativeFunctionNames⟩ : NativeState).counts 0 + 1) %
            wordMod ∧
        (OS_NATIVE_ENTER 0 0 0
            (⟨fun _ => wordMod - 1, OS_nativeFunctionNames⟩ : NativeState)).counts 0 = 0) :=
  ⟨rfl, C5_counters_zero_init_and_wrap 0 0 0 _ rfl⟩

/-- C6: frame property — for distinct valid identifiers `i ≠ j`, an expansion
of `OS_NATIVE_ENTER` for `i` leaves the counter at `j`, and hence the entry
for `j` in `report()`, unchanged, from every counter-table state. -/
theorem C6_enter_frame (env that i j : Nat) (s : NativeState) (hij : i ≠ j)
    (hj : j < 285) :
    (OS_NATIVE_ENTER env that i s).counts j = s.counts j ∧
      (report 285 (OS_NATIVE_ENTER env that i s)).get? j = (report 285 s).get? j := by
  have hc : (OS_NATIVE_ENTER env that i s).counts j = s.counts j :=
    enter_counts_other env that i j s (Ne.symm hij)
  refine ⟨hc, ?_⟩
  rw [report_get? 285 j _ hj, report_get? 285 j _ hj, hc, enter_names]

/-- Witness for C6 at `i = 0`, `j = 1`, the initial state. -/
theorem C6_enter_frame_witness :
    (0 : Nat) ≠ 1 ∧ (1 : Nat) < 285 ∧
      ((OS_NATIVE_ENTER 0 0 0 initialState).counts 1 = initialState.counts 1 ∧
        (report 285 (OS_NATIVE_ENTER 0 0 0 initialState)).get? 1 =
          (report 285 initialState).get? 1) :=
  ⟨by decide, by decide, C6_enter_frame 0 0 0 1 initialState (by decide) (by decide)⟩

/-- C7: `OS_NATIVE_EXIT` is a no-op in both build configurations: whether
`NATIVE_STATS` is defined or not, its expansion leaves the entire state
unchanged, for every identifier and every state. -/
theorem C7_exit_noop (env that func : Nat) (s : NativeState) :
    OS_NATIVE_EXIT env that func s = s ∧ OS_NATIVE_EXIT_disabled env that func s = s :=
  ⟨rfl, rfl⟩

/-- C8: in the disabled configuration (`NATIVE_STATS` not defined), both
`OS_NATIVE_ENTER` and `OS_NATIVE_EXIT` expand to nothing: the state after
either expansion equals the state before, for every identifier and every
state. -/
theorem C8_disabled_noop (env that func : Nat) (s : NativeState) :
    OS_NATIVE_ENTER_disabled env that func s = s ∧
      OS_NATIVE_EXIT_disabled env that func s = s :=
  ⟨rfl, rfl⟩

/-- C9: for the three-entry-point instance, the names `Alpha`, `Beta`,
`Gamma` (already lexicographically ordered) are assigned identifiers 0, 1, 2,
and from the all-zero table, after exactly two `OS_NATIVE_ENTER` expansions
for Beta's identifier and none for the others, `report()` yields
`[(Alpha, 0), (Beta, 2), (Gamma, 0)]`. -/
theorem C9_three_entry_example :
    assignIds ["Alpha", "Beta", "Gamma"] = [("Alpha", 0), ("Beta", 1), ("Gamma", 2)] ∧
      report 3 (enterK 1 2 (mkState ["Alpha", "Beta", "Gamma"])) =
        [("Alpha", 0), ("Beta", 2), ("Gamma", 0)] := by
  constructor
  · decide
  · decide

/-- C10: the enabled `OS_NATIVE_ENTER` is insensitive to its `env` and `that`
arguments — two invocations with the same `func` on the same state produce
identical states for arbitrary `env`/`that` — and neither `OS_NATIVE_ENTER`
nor `OS_NATIVE_EXIT`, in either configuration, modifies the name table
`OS_nativeFunctionNames`. -/
theorem C10_env_that_irrelevant (env1 that1 env2 that2 func : Nat) (s : NativeState) :
    OS_NATIVE_ENTER env1 that1 func s = OS_NATIVE_ENTER env2 that2 func s ∧
      (OS_NATIVE_ENTER env1 that1 func s).names = s.names ∧
      (OS_NATIVE_EXIT env1 that1 func s).names = s.names ∧
      (OS_NATIVE_ENTER_disabled env1 that1 func s).names = s.names ∧
      (OS_NATIVE_EXIT_disabled env1 that1 func s).names = s.names :=
  ⟨rfl, rfl, rfl, rfl, rfl⟩

end OSStats
